import Mathlib

/-!
Verification of the SIMS authentication subsystem.

Shallow embedding of the authentication core of the repository:
`backend/app/core/security.py` (token creation, password hashing),
`backend/app/api/deps.py` (`get_current_user`), and
`backend/app/api/v1/auth.py` (login, refresh, forgot/reset password and
the WebAuthn ceremony endpoints, together with the module-level
`webauthn_challenges` dictionary).

External collaborators are modelled explicitly:
- the `jose` JWT codec is modelled structurally: a token is its claim set
  together with the symmetric key that signed it; `jwt.decode` checks the
  signature and then the `exp` claim (jose rejects exactly when
  `exp < now`, with an expiry-specific error distinct from a bad
  signature);
- the `passlib` bcrypt context is modelled as a deterministic injective
  digest function with the `verify(p, hash(p)) = true` contract;
- the `py_webauthn` response verifier is modelled from the spec (see
  `verify_authentication_response` below).

Database tables (`Admin`, `Teacher`, `Student`, `Parent`,
`WebAuthnCredential`) are lists of records; `query(...).filter(...).first()`
is `List.find?`.
-/

namespace SIMS

/-- Common shape of the four principal records (`Admin`, `Teacher`,
`Student`, `Parent` in `backend/app/models/*`): the authentication core
only reads `id`, `email`, `hashed_password`, `is_active`, `full_name`. -/
structure User where
  id : String
  email : String
  hashed_password : String
  is_active : Bool
  full_name : String
deriving DecidableEq, Repr

/-- Row of the `webauthn_credentials` table
(`backend/app/models/webauthn.py`). -/
structure WebAuthnCredential where
  user_id : String
  user_role : String
  credential_id : String
  public_key : String
  sign_count : Nat
deriving DecidableEq, Repr

/-- The database state seen by the authentication endpoints: the four
principal tables plus the WebAuthn credential table. -/
structure DB where
  admins : List User
  teachers : List User
  students : List User
  parents : List User
  webauthn_credentials : List WebAuthnCredential
deriving DecidableEq, Repr

/-- The configuration surface consumed (`backend/app/core/config.py`):
signing key and token lifetimes. The signing key is abstracted to a `Nat`
identifier of the symmetric secret. -/
structure Config where
  SECRET_KEY : Nat
  ACCESS_TOKEN_EXPIRE_MINUTES : Nat
  REFRESH_TOKEN_EXPIRE_DAYS : Nat
deriving DecidableEq, Repr

/-- JWT claim set as built by `create_access_token` /
`create_refresh_token` in `backend/app/core/security.py`: expiry, subject,
token type (`"access"` or `"refresh"`), unique id `jti`, and the optional
`role` and `full_name` claims. Timestamps are seconds as `Nat`. -/
structure Claims where
  exp : Nat
  sub : String
  type : String
  jti : Nat
  role : Option String
  full_name : Option String
deriving DecidableEq, Repr

/-- Structural model of a signed JWT: the claim set together with the key
that produced the signature. A signature is valid for `key` exactly when
`mac = key` (symmetric HS256 signing with a single process-wide secret). -/
structure Token where
  claims : Claims
  mac : Nat
deriving DecidableEq, Repr

/-- Model of `jose.jwt.encode(claims, SECRET_KEY, algorithm="HS256")`. -/
def jwt_encode (key : Nat) (c : Claims) : Token := ⟨c, key⟩

/-- The structural validity of a token's signature under `key`. -/
def sig_valid (key : Nat) (t : Token) : Bool := t.mac == key

/-- Errors raised by `jose.jwt.decode`: a bad signature and an expired
token are distinct exceptions (both subclasses of `JWTError`). -/
inductive JWTError
  | invalidSignature
  | expiredSignature
deriving DecidableEq, Repr

/-- Model of `jose.jwt.decode(token, SECRET_KEY, algorithms=["HS256"])` at
time `now`: verify the signature, then the `exp` claim (jose raises
`ExpiredSignatureError` exactly when `exp < now`; a token is still
accepted at `now = exp`). -/
def jwt_decode (key : Nat) (now : Nat) (t : Token) : Except JWTError Claims :=
  if ¬ sig_valid key t then .error .invalidSignature
  else if t.claims.exp < now then .error .expiredSignature
  else .ok t.claims

/-- Model of the `passlib` bcrypt context's `hash`: a deterministic
injective digest. -/
def get_password_hash (password : String) : String := "$2b$12$" ++ password

/-- Model of the `passlib` bcrypt context's `verify`: a digest verifies
exactly against the password it hashes. -/
def verify_password (plain_password hashed_password : String) : Bool :=
  hashed_password == get_password_hash plain_password

/-- `create_access_token` from `backend/app/core/security.py`: expiry is
`now + expires_delta` (default `ACCESS_TOKEN_EXPIRE_MINUTES` minutes),
`type` is `"access"`, and the `role` / `full_name` claims are included
only when the arguments are truthy (Python `if role:` / `if full_name:`,
so `None` and `""` are both omitted). -/
def create_access_token (cfg : Config) (now : Nat) (subject : String)
    (expires_delta : Option Nat) (role : Option String)
    (full_name : Option String) (jti : Nat) : Token :=
  let expire :=
    match expires_delta with
    | some d => now + d
    | none => now + 60 * cfg.ACCESS_TOKEN_EXPIRE_MINUTES
  jwt_encode cfg.SECRET_KEY
    { exp := expire
      sub := subject
      type := "access"
      jti := jti
      role := match role with
              | some r => if r == "" then none else some r
              | none => none
      full_name := match full_name with
                   | some n => if n == "" then none else some n
                   | none => none }

/-- `create_refresh_token` from `backend/app/core/security.py`: expiry is
`now + REFRESH_TOKEN_EXPIRE_DAYS` days, `type` is `"refresh"`, no
`full_name` claim. -/
def create_refresh_token (cfg : Config) (now : Nat) (subject : String)
    (role : Option String) (jti : Nat) : Token :=
  jwt_encode cfg.SECRET_KEY
    { exp := now + 86400 * cfg.REFRESH_TOKEN_EXPIRE_DAYS
      sub := subject
      type := "refresh"
      jti := jti
      role := match role with
              | some r => if r == "" then none else some r
              | none => none
      full_name := none }

/-- `crud_admin.get_admin_by_email`: first row of the admin table with the
given email. -/
def get_admin_by_email (db : DB) (email : String) : Option User :=
  db.admins.find? (fun u => u.email == email)

/-- `crud_teacher.get_teacher_by_email`. -/
def get_teacher_by_email (db : DB) (email : String) : Option User :=
  db.teachers.find? (fun u => u.email == email)

/-- `crud_student.get_student_by_email`. -/
def get_student_by_email (db : DB) (email : String) : Option User :=
  db.students.find? (fun u => u.email == email)

/-- `crud_parent.get_parent_by_email`. -/
def get_parent_by_email (db : DB) (email : String) : Option User :=
  db.parents.find? (fun u => u.email == email)

/-- The by-identifier fallthrough shared by `login_access_token`,
`forgot_password`, `webauthn_login_generate` and `webauthn_login_verify`
in `backend/app/api/v1/auth.py`: try Admin, then Teacher, then Student,
then Parent, tagging the first hit with its role string. -/
def lookup_user_by_email (db : DB) (email : String) : Option (User × String) :=
  match get_admin_by_email db email with
  | some u => some (u, "admin")
  | none =>
    match get_teacher_by_email db email with
    | some u => some (u, "teacher")
    | none =>
      match get_student_by_email db email with
      | some u => some (u, "student")
      | none =>
        match get_parent_by_email db email with
        | some u => some (u, "parent")
        | none => none

/-- `db.query(Model).filter(Model.id == sub).first()` over one table: the
first row whose `id` matches. -/
def query_user_by_id : List User → String → Option User
  | [], _ => none
  | u :: rest, uid => if u.id == uid then some u else query_user_by_id rest uid

/-- The role dispatch shared by `refresh_token`, `reset_password`
(`auth.py`) and `get_current_user` (`deps.py`): select the table from the
token's `role` claim; any other role (including a missing one) leaves
`user = None`. -/
def query_by_role (db : DB) (role : Option String) (sub : String) : Option User :=
  if role == some "admin" then query_user_by_id db.admins sub
  else if role == some "teacher" then query_user_by_id db.teachers sub
  else if role == some "student" then query_user_by_id db.students sub
  else if role == some "parent" then query_user_by_id db.parents sub
  else none

/-- A FastAPI `HTTPException` with its status code and detail string. -/
structure HTTPError where
  status_code : Nat
  detail : String
deriving DecidableEq, Repr

/-- The `Token` response schema of `backend/app/schemas/auth.py`: access
token, refresh token and the `"bearer"` marker. -/
structure TokenPair where
  access_token : Token
  refresh_token : Token
  token_type : String
deriving DecidableEq, Repr

/-- `login_access_token` (`auth.py`): resolve by email with the
Admin > Teacher > Student > Parent fallthrough; `if not user or not
security.verify_password(...)` gives the conflated 400 "Incorrect email
or password"; only then `elif not user.is_active` gives 400 "Inactive
user"; on success issue an access token (with role and full name) and a
refresh token (role only). `jti1`, `jti2` are the fresh random `jti`
values of the two tokens. -/
def login_access_token (db : DB) (cfg : Config) (now jti1 jti2 : Nat)
    (email password : String) : Except HTTPError TokenPair :=
  match lookup_user_by_email db email with
  | none => .error ⟨400, "Incorrect email or password"⟩
  | some (user, role) =>
    if ¬ verify_password password user.hashed_password then
      .error ⟨400, "Incorrect email or password"⟩
    else if ¬ user.is_active then
      .error ⟨400, "Inactive user"⟩
    else
      .ok { access_token := create_access_token cfg now user.id
              (some (60 * cfg.ACCESS_TOKEN_EXPIRE_MINUTES)) (some role)
              (some user.full_name) jti1
            refresh_token := create_refresh_token cfg now user.id (some role) jti2
            token_type := "bearer" }

/-- `refresh_token` (`auth.py`): decode (any `JWTError` becomes 400
"Invalid or expired refresh token"), assert `payload["type"] ==
"refresh"` (the `HTTPException` 400 "Invalid token type" raised inside
the `try` block is not caught by `except (jwt.JWTError,
ValidationError)`), resolve the principal from the `role`/`sub` claims
(miss gives 404), reject inactive accounts, then issue a fresh access
token and return the incoming refresh token unchanged. -/
def refresh_token (db : DB) (cfg : Config) (now jti : Nat)
    (data_refresh_token : Token) : Except HTTPError TokenPair :=
  match jwt_decode cfg.SECRET_KEY now data_refresh_token with
  | .error _ => .error ⟨400, "Invalid or expired refresh token"⟩
  | .ok payload =>
    if payload.type ≠ "refresh" then .error ⟨400, "Invalid token type"⟩
    else
      match query_by_role db payload.role payload.sub with
      | none => .error ⟨404, "User not found"⟩
      | some user =>
        if ¬ user.is_active then .error ⟨400, "Inactive user"⟩
        else
          .ok { access_token := create_access_token cfg now user.id
                  (some (60 * cfg.ACCESS_TOKEN_EXPIRE_MINUTES)) payload.role
                  (some user.full_name) jti
                refresh_token := data_refresh_token
                token_type := "bearer" }

/-- `forgot_password` (`auth.py`): resolve by email with the same
fallthrough; on a miss 404 "User with this email does not exist";
otherwise mint `create_access_token(user.id,
expires_delta=timedelta(minutes=15), role=role)` — no `full_name`
argument — and return it. -/
def forgot_password (db : DB) (cfg : Config) (now jti : Nat)
    (email : String) : Except HTTPError Token :=
  match lookup_user_by_email db email with
  | none => .error ⟨404, "User with this email does not exist"⟩
  | some (user, role) =>
    .ok (create_access_token cfg now user.id (some (15 * 60)) (some role) none jti)

/-- SQLAlchemy effect of `user.hashed_password = h; db.commit()` where
`user` is the first row of the table whose `id` matches: rewrite that
row's digest. -/
def set_password_first : List User → String → String → List User
  | [], _, _ => []
  | u :: rest, uid, h =>
    if u.id == uid then { u with hashed_password := h } :: rest
    else u :: set_password_first rest uid h

/-- Apply `set_password_first` to the table selected by the token's
`role` claim (the same dispatch as `query_by_role`). -/
def update_password (db : DB) (role : Option String) (sub h : String) : DB :=
  if role == some "admin" then { db with admins := set_password_first db.admins sub h }
  else if role == some "teacher" then { db with teachers := set_password_first db.teachers sub h }
  else if role == some "student" then { db with students := set_password_first db.students sub h }
  else if role == some "parent" then { db with parents := set_password_first db.parents sub h }
  else db

/-- `reset_password` (`auth.py`): decode the reset token (any failure is
400 "Invalid or expired token"), resolve the principal from the
`role`/`sub` claims (miss gives 404 "User not found"), then hash the new
password and overwrite the stored digest. Nothing inspects the token's
`type` claim and nothing marks the token as used. Returns the updated
database. -/
def reset_password (db : DB) (cfg : Config) (now : Nat) (token : Token)
    (new_password : String) : Except HTTPError DB :=
  match jwt_decode cfg.SECRET_KEY now token with
  | .error _ => .error ⟨400, "Invalid or expired token"⟩
  | .ok payload =>
    match query_by_role db payload.role payload.sub with
    | none => .error ⟨404, "User not found"⟩
    | some _ => .ok (update_password db payload.role payload.sub
                      (get_password_hash new_password))

/-- `get_current_user` (`backend/app/api/deps.py`): decode the bearer
token (any `JWTError` gives 401 "Could not validate credentials"), parse
the payload into `TokenPayload` (both fields optional, so parsing is
total; `app/schemas/common.py` is absent from the snapshot but the
schema is the same `{sub, role}` pair as `app/schemas/auth.py`), resolve
the principal from the `role`/`sub` claims (miss gives 404). The `type`
claim is never inspected. -/
def get_current_user (db : DB) (cfg : Config) (now : Nat) (token : Token) :
    Except HTTPError User :=
  match jwt_decode cfg.SECRET_KEY now token with
  | .error _ => .error ⟨401, "Could not validate credentials"⟩
  | .ok payload =>
    match query_by_role db payload.role payload.sub with
    | none => .error ⟨404, "User not found"⟩
    | some user => .ok user

/-- The module-level `webauthn_challenges = {}` dictionary of `auth.py`,
as a finite map from session key (user id or claimed email) to the
outstanding challenge (abstracted to `Nat`). -/
def ChallengeStore : Type := String → Option Nat

/-- `webauthn_challenges[key] = challenge`: insert, overwriting any
existing entry for that key. -/
def store_set (s : ChallengeStore) (k : String) (c : Nat) : ChallengeStore :=
  fun k' => if k' == k then some c else s k'

/-- `webauthn_challenges.pop(key, None)`: return the entry (or `none`)
and remove it. -/
def store_pop (s : ChallengeStore) (k : String) : Option Nat × ChallengeStore :=
  (s k, fun k' => if k' == k then none else s k')

/-- The relying-party id constant of `auth.py`. -/
def RP_ID : String := "localhost"

/-- The expected origin constant of `auth.py`. -/
def ORIGIN : String := "http://localhost:5173"

/-- The distinct failure exits of `webauthn_login_verify` (`auth.py`).
`noChallenge` is the 400 "No active authentication session found";
`inactiveOrMissingUser` the 404 "Inactive or non-existent user"; the
remaining constructors are the exceptions of the `try` block, each
rendered as 400 "WebAuthn authentication failed: ...". -/
inductive WebAuthnError
  | noChallenge
  | inactiveOrMissingUser
  | invalidCredentialFormat
  | credentialNotFound
  | verificationFailed
  | replayDetected
deriving DecidableEq, Repr

/-- An authentication assertion as the verifier sees it: the credential
id named in the request, the challenge echoed in the signed client data,
the origin and relying-party id it was produced for, the public key whose
private half produced the signature (`signed_with`; the signature checks
out against a stored key exactly when the two keys coincide), and the
authenticator's reported signature counter. -/
structure AuthenticationResponse where
  id : String
  challenge : Nat
  origin : String
  rp_id : String
  signed_with : String
  sign_count : Nat
deriving DecidableEq, Repr

/-- Modelled from the spec: the external `py_webauthn`
`verify_authentication_response`, absent from the snapshot. Spec §4.6:
verify the response's embedded challenge, origin and relying-party
identity; "verify the signature over (challenge ‖ context) using the
stored public key; verify the response's new counter is strictly greater
than the stored counter, or — if the authenticator does not support
counters — accept but never decrease (`ReplayDetected` if counter fails
to advance and the authenticator type is counter-bearing)". An
authenticator is counter-bearing when either counter is nonzero. On
success returns the response's new sign count. -/
def verify_authentication_response (resp : AuthenticationResponse)
    (expected_challenge : Nat) (expected_origin expected_rp_id : String)
    (credential_public_key : String) (credential_current_sign_count : Nat) :
    Except WebAuthnError Nat :=
  if resp.challenge ≠ expected_challenge then .error .verificationFailed
  else if resp.origin ≠ expected_origin then .error .verificationFailed
  else if resp.rp_id ≠ expected_rp_id then .error .verificationFailed
  else if resp.signed_with ≠ credential_public_key then .error .verificationFailed
  else if (0 < resp.sign_count ∨ 0 < credential_current_sign_count)
          ∧ resp.sign_count ≤ credential_current_sign_count then
    .error .replayDetected
  else .ok resp.sign_count

/-- SQLAlchemy effect of `db_cred.sign_count = n; db.commit()` where
`db_cred` is the first credential row whose `credential_id` matches. -/
def set_sign_count_first : List WebAuthnCredential → String → Nat → List WebAuthnCredential
  | [], _, _ => []
  | c :: rest, cid, n =>
    if c.credential_id == cid then { c with sign_count := n } :: rest
    else c :: set_sign_count_first rest cid n

/-- `webauthn_login_verify` (`auth.py`): pop the challenge keyed by the
claimed email (missing means "No active authentication session found");
resolve the user by the email fallthrough and require it active; read the
credential id from the parsed assertion (falsy means invalid format);
look the credential row up by `credential_id`; run the external verifier
against the stored public key and sign count; on success persist
`db_cred.sign_count = verification.new_sign_count` and mint a token pair
exactly as password login does. Returns the outcome together with the
resulting challenge store and database. -/
def webauthn_login_verify (store : ChallengeStore) (db : DB) (cfg : Config)
    (now jti1 jti2 : Nat) (email : String) (resp : AuthenticationResponse) :
    Except WebAuthnError TokenPair × ChallengeStore × DB :=
  match store_pop store email with
  | (none, store') => (.error .noChallenge, store', db)
  | (some expected_challenge, store') =>
    match lookup_user_by_email db email with
    | none => (.error .inactiveOrMissingUser, store', db)
    | some (user, role) =>
      if ¬ user.is_active then (.error .inactiveOrMissingUser, store', db)
      else if resp.id == "" then (.error .invalidCredentialFormat, store', db)
      else
        match db.webauthn_credentials.find? (fun c => c.credential_id == resp.id) with
        | none => (.error .credentialNotFound, store', db)
        | some db_cred =>
          match verify_authentication_response resp expected_challenge ORIGIN RP_ID
              db_cred.public_key db_cred.sign_count with
          | .error e => (.error e, store', db)
          | .ok new_sign_count =>
            (.ok { access_token := create_access_token cfg now user.id
                     (some (60 * cfg.ACCESS_TOKEN_EXPIRE_MINUTES)) (some role)
                     (some user.full_name) jti1
                   refresh_token := create_refresh_token cfg now user.id (some role) jti2
                   token_type := "bearer" },
             store',
             { db with webauthn_credentials :=
                 set_sign_count_first db.webauthn_credentials resp.id new_sign_count })

/-- Whether an `Except` computation succeeded. -/
def except_is_ok : Except WebAuthnError TokenPair → Bool
  | .ok _ => true
  | .error _ => false

/-! Concrete fixtures used by witnesses and counterexamples. -/

/-- A concrete configuration: secret key 77, 30-minute access tokens,
7-day refresh tokens. -/
def cfg0 : Config :=
  { SECRET_KEY := 77, ACCESS_TOKEN_EXPIRE_MINUTES := 30, REFRESH_TOKEN_EXPIRE_DAYS := 7 }

/-- An active student. -/
def alice : User :=
  { id := "s1", email := "alice@example.com",
    hashed_password := get_password_hash "pw-alice", is_active := true,
    full_name := "Alice" }

/-- A deactivated student. -/
def bob : User :=
  { id := "s2", email := "bob@example.com",
    hashed_password := get_password_hash "pw-bob", is_active := false,
    full_name := "Bob" }

/-- A WebAuthn credential of `alice` whose authenticator is not
counter-bearing (stored counter 0). -/
def cred0 : WebAuthnCredential :=
  { user_id := "s1", user_role := "student", credential_id := "cred1",
    public_key := "pk1", sign_count := 0 }

/-- A WebAuthn credential of `alice` with a counter-bearing authenticator
(stored counter 5). -/
def cred4 : WebAuthnCredential :=
  { user_id := "s1", user_role := "student", credential_id := "cred4",
    public_key := "pk4", sign_count := 5 }

/-- A concrete database: two students and `alice`'s two credentials. -/
def db0 : DB :=
  { admins := [], teachers := [], students := [alice, bob], parents := [],
    webauthn_credentials := [cred0, cred4] }

/-- An access-kind claim set for `alice`. -/
def claims0 : Claims :=
  { exp := 100, sub := "s1", type := "access", jti := 1,
    role := some "student", full_name := none }

/-- A refresh-kind claim set for `alice`. -/
def claims_refresh : Claims :=
  { exp := 100, sub := "s1", type := "refresh", jti := 2,
    role := some "student", full_name := none }

/-- A reset-style claim set for `alice` with expiry 1000. -/
def claims_reset : Claims :=
  { exp := 1000, sub := "s1", type := "access", jti := 3,
    role := some "student", full_name := none }

/-- A teacher whose identifier collides with a student's. -/
def carol_t : User :=
  { id := "t1", email := "x@y.com",
    hashed_password := get_password_hash "pw-ct", is_active := true,
    full_name := "Carol T" }

/-- A student whose identifier collides with a teacher's. -/
def carol_s : User :=
  { id := "s9", email := "x@y.com",
    hashed_password := get_password_hash "pw-cs", is_active := true,
    full_name := "Carol S" }

/-- A database where "x@y.com" exists as both a Teacher and a Student. -/
def db6 : DB :=
  { admins := [], teachers := [carol_t], students := [carol_s], parents := [],
    webauthn_credentials := [] }

/-- A challenge store holding challenge 7 for `alice`'s email. -/
def store0 : ChallengeStore := store_set (fun _ => none) "alice@example.com" 7

/-- A valid assertion over `cred0` (counter-less authenticator, response
counter 0). -/
def resp0 : AuthenticationResponse :=
  { id := "cred1", challenge := 7, origin := ORIGIN, rp_id := RP_ID,
    signed_with := "pk1", sign_count := 0 }

/-- A challenge store holding challenge 9 for `alice`'s email. -/
def store4 : ChallengeStore := store_set (fun _ => none) "alice@example.com" 9

/-- A validly signed assertion over `cred4` whose counter (5) fails to
advance past the stored counter (5). -/
def resp4 : AuthenticationResponse :=
  { id := "cred4", challenge := 9, origin := ORIGIN, rp_id := RP_ID,
    signed_with := "pk4", sign_count := 5 }

/-! Helper lemmas shared across the claim theorems. -/

/-- The role tag attached by the by-identifier fallthrough is always one
of the four fixed literals. -/
theorem lookup_role_cases (db : DB) (email : String) (u : User) (r : String)
    (h : lookup_user_by_email db email = some (u, r)) :
    r = "admin" ∨ r = "teacher" ∨ r = "student" ∨ r = "parent" := by
  unfold lookup_user_by_email at h
  cases ha : get_admin_by_email db email <;> rw [ha] at h
  case some => simp_all
  cases ht : get_teacher_by_email db email <;> rw [ht] at h
  case some => simp_all
  cases hs : get_student_by_email db email <;> rw [hs] at h
  case some => simp_all
  cases hp : get_parent_by_email db email <;> rw [hp] at h
  case some => simp_all
  simp at h

/-- Updating the digest of the first row whose id matches leaves the row
findable, with only the digest changed. -/
theorem query_set_password (l : List User) (uid h : String) (u : User)
    (hf : query_user_by_id l uid = some u) :
    query_user_by_id (set_password_first l uid h) uid =
      some { u with hashed_password := h } := by
  induction l with
  | nil => simp [query_user_by_id] at hf
  | cons a rest ih =>
    by_cases ha : (a.id == uid) = true
    · simp only [query_user_by_id, if_pos ha] at hf
      obtain rfl := Option.some.inj hf
      simp [set_password_first, query_user_by_id, ha]
    · simp only [query_user_by_id, if_neg ha] at hf
      simp only [set_password_first, if_neg ha]
      simp only [query_user_by_id, if_neg ha]
      exact ih hf

/-- `update_password` leaves the token's principal resolvable by
`query_by_role`, with only the digest changed. -/
theorem query_update_password (db : DB) (role : Option String) (sub h : String)
    (u : User) (hq : query_by_role db role sub = some u) :
    query_by_role (update_password db role sub h) role sub =
      some { u with hashed_password := h } := by
  unfold query_by_role update_password at *
  split at hq
  · simp_all [query_set_password]
  · split at hq
    · simp_all [query_set_password]
    · split at hq
      · simp_all [query_set_password]
      · split at hq
        · simp_all [query_set_password]
        · simp_all

/-! Claim theorems. -/

/-- C8: for every claim set, decoding an encoded token with the same
process secret before expiry yields the original claims (round-trip
identity), and after expiry decoding fails with the expiry-specific
error even though the signature remains structurally valid. -/
theorem token_codec_round_trip :
    (∀ (key now : Nat) (c : Claims), now ≤ c.exp →
        jwt_decode key now (jwt_encode key c) = .ok c)
    ∧ (∀ (key now : Nat) (c : Claims), c.exp < now →
        jwt_decode key now (jwt_encode key c) = .error .expiredSignature
          ∧ sig_valid key (jwt_encode key c) = true) := by
  constructor
  · intro key now c hexp
    simp [jwt_decode, jwt_encode, sig_valid, Nat.not_lt.mpr hexp]
  · intro key now c hexp
    simp [jwt_decode, jwt_encode, sig_valid, hexp]

/-- Witness for C8 at the concrete claim set `claims0` (expiry 100),
decoded at times 50 (accepted) and 200 (expired). -/
theorem token_codec_round_trip_witness :
    ((50 ≤ claims0.exp)
      ∧ jwt_decode 77 50 (jwt_encode 77 claims0) = .ok claims0)
    ∧ ((claims0.exp < 200)
      ∧ jwt_decode 77 200 (jwt_encode 77 claims0) = .error .expiredSignature
      ∧ sig_valid 77 (jwt_encode 77 claims0) = true) :=
  ⟨⟨by decide, token_codec_round_trip.1 77 50 claims0 (by decide)⟩,
   ⟨by decide, token_codec_round_trip.2 77 200 claims0 (by decide)⟩⟩

/-- C1: for every token whose kind claim is not `"refresh"`, the refresh
operation fails with the invalid-token-type error (400, "Invalid token
type") even when the signature is valid and the token is unexpired; no
new token pair is issued (the result is an error, not a pair). -/
theorem refresh_rejects_non_refresh_kind (db : DB) (cfg : Config)
    (now jti : Nat) (c : Claims)
    (hexp : now ≤ c.exp) (hkind : c.type ≠ "refresh") :
    refresh_token db cfg now jti (jwt_encode cfg.SECRET_KEY c) =
      .error ⟨400, "Invalid token type"⟩ := by
  simp [refresh_token, jwt_decode, jwt_encode, sig_valid,
        Nat.not_lt.mpr hexp, hkind]

/-- Witness for C1: the validly signed, unexpired access-kind claim set
`claims0` fed to `refresh_token` is rejected with "Invalid token type". -/
theorem refresh_rejects_non_refresh_kind_witness :
    ((5 ≤ claims0.exp) ∧ claims0.type ≠ "refresh")
    ∧ refresh_token db0 cfg0 5 9 (jwt_encode cfg0.SECRET_KEY claims0) =
        .error ⟨400, "Invalid token type"⟩ :=
  ⟨⟨by decide, by decide⟩,
   refresh_rejects_non_refresh_kind db0 cfg0 5 9 claims0 (by decide) (by decide)⟩

/-- C5: login with a nonexistent identifier and login with an existing
identifier but wrong secret return the identical error value
(400, "Incorrect email or password"). -/
theorem login_invalid_credentials_indistinguishable :
    (∀ (db : DB) (cfg : Config) (now jti1 jti2 : Nat) (email password : String),
        lookup_user_by_email db email = none →
        login_access_token db cfg now jti1 jti2 email password =
          .error ⟨400, "Incorrect email or password"⟩)
    ∧ (∀ (db : DB) (cfg : Config) (now jti1 jti2 : Nat) (email password : String)
        (u : User) (role : String),
        lookup_user_by_email db email = some (u, role) →
        verify_password password u.hashed_password = false →
        login_access_token db cfg now jti1 jti2 email password =
          .error ⟨400, "Incorrect email or password"⟩) := by
  constructor
  · intro db cfg now jti1 jti2 email password h
    simp [login_access_token, h]
  · intro db cfg now jti1 jti2 email password u role h hv
    simp [login_access_token, h, hv]

/-- Witness for C5: a missing identifier and `alice` with a wrong secret
produce the same error value. -/
theorem login_invalid_credentials_indistinguishable_witness :
    (lookup_user_by_email db0 "ghost@example.com" = none
      ∧ lookup_user_by_email db0 "alice@example.com" = some (alice, "student")
      ∧ verify_password "wrong" alice.hashed_password = false)
    ∧ login_access_token db0 cfg0 0 1 2 "ghost@example.com" "whatever" =
        .error ⟨400, "Incorrect email or password"⟩
    ∧ login_access_token db0 cfg0 0 1 2 "alice@example.com" "wrong" =
        .error ⟨400, "Incorrect email or password"⟩ :=
  ⟨⟨by decide, by decide, by decide⟩,
   login_invalid_credentials_indistinguishable.1 db0 cfg0 0 1 2
     "ghost@example.com" "whatever" (by decide),
   login_invalid_credentials_indistinguishable.2 db0 cfg0 0 1 2
     "alice@example.com" "wrong" alice "student" (by decide) (by decide)⟩

/-- C7: login checks the secret before the active flag: a wrong secret
yields the invalid-credentials error with no hypothesis on the active
flag (so in particular for inactive accounts), and the inactive-account
error is returned only when the supplied secret verifies against the
stored digest. -/
theorem login_checks_secret_before_active :
    (∀ (db : DB) (cfg : Config) (now jti1 jti2 : Nat) (email password : String)
        (u : User) (role : String),
        lookup_user_by_email db email = some (u, role) →
        verify_password password u.hashed_password = false →
        login_access_token db cfg now jti1 jti2 email password =
          .error ⟨400, "Incorrect email or password"⟩)
    ∧ (∀ (db : DB) (cfg : Config) (now jti1 jti2 : Nat) (email password : String),
        login_access_token db cfg now jti1 jti2 email password =
          .error ⟨400, "Inactive user"⟩ →
        ∃ u role, lookup_user_by_email db email = some (u, role)
          ∧ verify_password password u.hashed_password = true
          ∧ u.is_active = false) := by
  constructor
  · intro db cfg now jti1 jti2 email password u role h hv
    simp [login_access_token, h, hv]
  · intro db cfg now jti1 jti2 email password h
    unfold login_access_token at h
    rcases hl : lookup_user_by_email db email with _ | ⟨u, role⟩ <;> rw [hl] at h
    · simp at h
    · by_cases hv : verify_password password u.hashed_password
      · by_cases ha : u.is_active
        · simp [hv, ha] at h
        · exact ⟨u, role, hl ▸ rfl, hv, by simpa using ha⟩
      · simp [hv] at h

/-- C2: only the refresh operation asserts the token kind. For every
validly-signed, unexpired token whose claims resolve to an existing
principal, bearer authentication (`get_current_user`) and the
reset-password operation both accept the token whatever the value of its
`type` claim (the claim set `c` below is arbitrary, its `type` field in
particular). Third conjunct: a long-lived refresh token minted at time
`t` is still accepted by reset-password at `t + 960` seconds, past the
15-minute (900 s) reset ceiling. -/
theorem only_refresh_flow_checks_kind :
    (∀ (db : DB) (cfg : Config) (now : Nat) (c : Claims) (u : User),
        now ≤ c.exp →
        query_by_role db c.role c.sub = some u →
        get_current_user db cfg now (jwt_encode cfg.SECRET_KEY c) = .ok u)
    ∧ (∀ (db : DB) (cfg : Config) (now : Nat) (c : Claims) (u : User) (pw : String),
        now ≤ c.exp →
        query_by_role db c.role c.sub = some u →
        reset_password db cfg now (jwt_encode cfg.SECRET_KEY c) pw =
          .ok (update_password db c.role c.sub (get_password_hash pw)))
    ∧ (∀ (db : DB) (cfg : Config) (t jti : Nat) (uid role pw : String) (u : User),
        role ≠ "" →
        1 ≤ cfg.REFRESH_TOKEN_EXPIRE_DAYS →
        query_by_role db (some role) uid = some u →
        reset_password db cfg (t + 960)
            (create_refresh_token cfg t uid (some role) jti) pw =
          .ok (update_password db (some role) uid (get_password_hash pw))) := by
  refine ⟨?_, ?_, ?_⟩
  · intro db cfg now c u hexp hq
    simp [get_current_user, jwt_decode, jwt_encode, sig_valid,
          Nat.not_lt.mpr hexp, hq]
  · intro db cfg now c u pw hexp hq
    simp [reset_password, jwt_decode, jwt_encode, sig_valid,
          Nat.not_lt.mpr hexp, hq]
  · intro db cfg t jti uid role pw u hrole hdays hq
    have hr : (role == "") = false := by
      simpa using hrole
    have hle : t + 960 ≤ t + 86400 * cfg.REFRESH_TOKEN_EXPIRE_DAYS := by
      have : (960 : Nat) ≤ 86400 * cfg.REFRESH_TOKEN_EXPIRE_DAYS :=
        le_trans (by norm_num) (Nat.le_mul_of_pos_right 86400 hdays)
      omega
    simp [reset_password, create_refresh_token, jwt_decode, jwt_encode,
          sig_valid, Nat.not_lt.mpr hle, hr, hq]

/-- Witness for C2: the refresh-kind claim set `claims_refresh` is
accepted by `get_current_user`, and a refresh token for `alice` minted
at time 0 is accepted by reset-password at time 960 (16 minutes). -/
theorem only_refresh_flow_checks_kind_witness :
    ((50 ≤ claims_refresh.exp)
      ∧ query_by_role db0 claims_refresh.role claims_refresh.sub = some alice
      ∧ (1 ≤ cfg0.REFRESH_TOKEN_EXPIRE_DAYS)
      ∧ query_by_role db0 (some "student") "s1" = some alice)
    ∧ get_current_user db0 cfg0 50 (jwt_encode cfg0.SECRET_KEY claims_refresh) =
        .ok alice
    ∧ reset_password db0 cfg0 (0 + 960)
        (create_refresh_token cfg0 0 "s1" (some "student") 3) "newpw" =
        .ok (update_password db0 (some "student") "s1" (get_password_hash "newpw")) :=
  ⟨⟨by decide, by decide, by decide, by decide⟩,
   only_refresh_flow_checks_kind.1 db0 cfg0 50 claims_refresh alice
     (by decide) (by decide),
   only_refresh_flow_checks_kind.2.2 db0 cfg0 0 3 "s1" "student" "newpw" alice
     (by decide) (by decide) (by decide)⟩

/-- C9: every reset token is an access-kind token with a 15-minute
(900 s) TTL whose claims carry only the subject id and role tag (no
display-name claim); a reset token issued at `t` is accepted by
reset-password at `t + 600` (10 minutes) and rejected as invalid at
`t + 960` (16 minutes). -/
theorem reset_token_shape_and_ttl :
    (∀ (db : DB) (cfg : Config) (now jti : Nat) (email : String)
        (u : User) (r : String),
        lookup_user_by_email db email = some (u, r) →
        forgot_password db cfg now jti email =
          .ok (jwt_encode cfg.SECRET_KEY
            { exp := now + 900, sub := u.id, type := "access", jti := jti,
              role := some r, full_name := none }))
    ∧ (∀ (db : DB) (cfg : Config) (t jti : Nat) (uid r pw : String) (u : User),
        query_by_role db (some r) uid = some u →
        reset_password db cfg (t + 600)
            (jwt_encode cfg.SECRET_KEY
              { exp := t + 900, sub := uid, type := "access", jti := jti,
                role := some r, full_name := none }) pw =
          .ok (update_password db (some r) uid (get_password_hash pw)))
    ∧ (∀ (db : DB) (cfg : Config) (t jti : Nat) (uid r pw : String),
        reset_password db cfg (t + 960)
            (jwt_encode cfg.SECRET_KEY
              { exp := t + 900, sub := uid, type := "access", jti := jti,
                role := some r, full_name := none }) pw =
          .error ⟨400, "Invalid or expired token"⟩) := by
  refine ⟨?_, ?_, ?_⟩
  · intro db cfg now jti email u r hl
    have hr : (r == "") = false := by
      rcases lookup_role_cases db email u r hl with h | h | h | h <;> simp [h]
    simp [forgot_password, hl, create_access_token, jwt_encode, hr]
  · intro db cfg t jti uid r pw u hq
    have hnl : ¬ (t + 900 < t + 600) := by omega
    simp [reset_password, jwt_decode, jwt_encode, sig_valid, hnl, hq]
  · intro db cfg t jti uid r pw
    have hl : t + 900 < t + 960 := by omega
    simp [reset_password, jwt_decode, jwt_encode, sig_valid, hl]

/-- Witness for C9: a reset token for `alice` issued at time 0; its
claim set, acceptance at 600 s and rejection at 960 s. -/
theorem reset_token_shape_and_ttl_witness :
    (lookup_user_by_email db0 "alice@example.com" = some (alice, "student")
      ∧ query_by_role db0 (some "student") "s1" = some alice)
    ∧ forgot_password db0 cfg0 0 4 "alice@example.com" =
        .ok (jwt_encode cfg0.SECRET_KEY
          { exp := 0 + 900, sub := alice.id, type := "access", jti := 4,
            role := some "student", full_name := none })
    ∧ reset_password db0 cfg0 (0 + 600)
        (jwt_encode cfg0.SECRET_KEY
          { exp := 0 + 900, sub := "s1", type := "access", jti := 4,
            role := some "student", full_name := none }) "npw" =
        .ok (update_password db0 (some "student") "s1" (get_password_hash "npw"))
    ∧ reset_password db0 cfg0 (0 + 960)
        (jwt_encode cfg0.SECRET_KEY
          { exp := 0 + 900, sub := "s1", type := "access", jti := 4,
            role := some "student", full_name := none }) "npw" =
        .error ⟨400, "Invalid or expired token"⟩ :=
  ⟨⟨by decide, by decide⟩,
   reset_token_shape_and_ttl.1 db0 cfg0 0 4 "alice@example.com" alice "student"
     (by decide),
   reset_token_shape_and_ttl.2.1 db0 cfg0 0 4 "s1" "student" "npw" alice
     (by decide),
   reset_token_shape_and_ttl.2.2 db0 cfg0 0 4 "s1" "student" "npw"⟩

/-- C10: consuming a reset token does not invalidate it: a first consume
succeeds, and a second consume with the same token (still before expiry)
succeeds again, overwriting the digest with the hash of whatever new
secret the second caller supplies. -/
theorem reset_token_replayable (db : DB) (cfg : Config) (t1 t2 : Nat)
    (c : Claims) (pw1 pw2 : String) (u : User)
    (h1 : t1 ≤ c.exp) (h2 : t2 ≤ c.exp)
    (hq : query_by_role db c.role c.sub = some u) :
    ∃ db1, reset_password db cfg t1 (jwt_encode cfg.SECRET_KEY c) pw1 = .ok db1
      ∧ ∃ db2, reset_password db1 cfg t2 (jwt_encode cfg.SECRET_KEY c) pw2 = .ok db2
        ∧ query_by_role db2 c.role c.sub =
            some { u with hashed_password := get_password_hash pw2 } := by
  have hq1 := query_update_password db c.role c.sub (get_password_hash pw1) u hq
  refine ⟨update_password db c.role c.sub (get_password_hash pw1), ?_,
    update_password (update_password db c.role c.sub (get_password_hash pw1))
      c.role c.sub (get_password_hash pw2), ?_, ?_⟩
  · simp [reset_password, jwt_decode, jwt_encode, sig_valid,
          Nat.not_lt.mpr h1, hq]
  · simp [reset_password, jwt_decode, jwt_encode, sig_valid,
          Nat.not_lt.mpr h2, hq1]
  · exact query_update_password _ c.role c.sub (get_password_hash pw2)
      { u with hashed_password := get_password_hash pw1 } hq1

/-- Witness for C10: `alice`'s reset token consumed at times 100 and 200
(both before expiry 1000); the second consume succeeds and leaves the
digest of the second new password. -/
theorem reset_token_replayable_witness :
    ((100 ≤ claims_reset.exp) ∧ (200 ≤ claims_reset.exp)
      ∧ query_by_role db0 claims_reset.role claims_reset.sub = some alice)
    ∧ ∃ db1, reset_password db0 cfg0 100 (jwt_encode cfg0.SECRET_KEY claims_reset)
          "first-new-pw" = .ok db1
        ∧ ∃ db2, reset_password db1 cfg0 200 (jwt_encode cfg0.SECRET_KEY claims_reset)
              "second-new-pw" = .ok db2
            ∧ query_by_role db2 claims_reset.role claims_reset.sub =
                some { alice with hashed_password := get_password_hash "second-new-pw" } :=
  ⟨⟨by decide, by decide, by decide⟩,
   reset_token_replayable db0 cfg0 100 200 claims_reset
     "first-new-pw" "second-new-pw" alice (by decide) (by decide) (by decide)⟩

/-- C6: lookup-by-identifier is a fixed-order fallthrough — Admin, then
Teacher, then Student, then Parent — returning the first match (first
five conjuncts characterise the fallthrough completely); in particular,
for an identifier present as both a Teacher (Staff) and a Student
(PrimaryUser) record — and, kinds being disjoint, in no earlier table —
resolution yields the Teacher principal, both for login resolution and
for the forgot-password flow. -/
theorem by_identifier_fixed_precedence :
    (∀ (db : DB) (email : String) (a : User),
        get_admin_by_email db email = some a →
        lookup_user_by_email db email = some (a, "admin"))
    ∧ (∀ (db : DB) (email : String) (t : User),
        get_admin_by_email db email = none →
        get_teacher_by_email db email = some t →
        lookup_user_by_email db email = some (t, "teacher"))
    ∧ (∀ (db : DB) (email : String) (s : User),
        get_admin_by_email db email = none →
        get_teacher_by_email db email = none →
        get_student_by_email db email = some s →
        lookup_user_by_email db email = some (s, "student"))
    ∧ (∀ (db : DB) (email : String) (p : User),
        get_admin_by_email db email = none →
        get_teacher_by_email db email = none →
        get_student_by_email db email = none →
        get_parent_by_email db email = some p →
        lookup_user_by_email db email = some (p, "parent"))
    ∧ (∀ (db : DB) (email : String),
        get_admin_by_email db email = none →
        get_teacher_by_email db email = none →
        get_student_by_email db email = none →
        get_parent_by_email db email = none →
        lookup_user_by_email db email = none)
    ∧ (∀ (db : DB) (cfg : Config) (now jti : Nat) (email : String) (t s : User),
        get_admin_by_email db email = none →
        get_teacher_by_email db email = some t →
        get_student_by_email db email = some s →
        lookup_user_by_email db email = some (t, "teacher")
        ∧ forgot_password db cfg now jti email =
            .ok (jwt_encode cfg.SECRET_KEY
              { exp := now + 900, sub := t.id, type := "access", jti := jti,
                role := some "teacher", full_name := none })) := by
  refine ⟨?_, ?_, ?_, ?_, ?_, ?_⟩
  · intro db email a h
    simp [lookup_user_by_email, h]
  · intro db email t h1 h2
    simp [lookup_user_by_email, h1, h2]
  · intro db email s h1 h2 h3
    simp [lookup_user_by_email, h1, h2, h3]
  · intro db email p h1 h2 h3 h4
    simp [lookup_user_by_email, h1, h2, h3, h4]
  · intro db email h1 h2 h3 h4
    simp [lookup_user_by_email, h1, h2, h3, h4]
  · intro db cfg now jti email t s h1 h2 h3
    constructor
    · simp [lookup_user_by_email, h1, h2]
    · simp [forgot_password, lookup_user_by_email, h1, h2,
            create_access_token, jwt_encode]

/-- Whatever the outcome, `webauthn_login_verify` leaves the challenge
store with the entry for the claimed email popped. -/
theorem webauthn_login_verify_store (store : ChallengeStore) (db : DB)
    (cfg : Config) (now jti1 jti2 : Nat) (email : String)
    (resp : AuthenticationResponse) :
    (webauthn_login_verify store db cfg now jti1 jti2 email resp).2.1 =
      (store_pop store email).2 := by
  unfold webauthn_login_verify
  rcases hse : store email with _ | ch
  · simp only [store_pop, hse]
  · simp only [store_pop, hse]
    rcases hl : lookup_user_by_email db email with _ | ⟨user, role⟩
    · simp only [hl]
    · simp only [hl]
      split
      · rfl
      · split
        · rfl
        · split
          · rfl
          · split <;> rfl

/-- C3: issuing a challenge overwrites any existing challenge for the
key (last-write-wins); take-once holds — the first take returns the
stored challenge and removes it, a second take returns nothing — and a
ceremony-finish call after the challenge for the key was already
consumed (by a previous take, in particular by a previous finish) fails
with the no-challenge error and leaves the database unchanged. -/
theorem challenge_store_take_once :
    (∀ (s : ChallengeStore) (k : String) (c1 c2 : Nat),
        (store_pop (store_set (store_set s k c1) k c2) k).1 = some c2)
    ∧ (∀ (s : ChallengeStore) (k : String) (c : Nat),
        (store_pop (store_set s k c) k).1 = some c)
    ∧ (∀ (s : ChallengeStore) (k : String),
        (store_pop (store_pop s k).2 k).1 = none)
    ∧ (∀ (s : ChallengeStore) (db : DB) (cfg : Config) (now jti1 jti2 : Nat)
        (email : String) (resp : AuthenticationResponse),
        (webauthn_login_verify (store_pop s email).2 db cfg now jti1 jti2
            email resp).1 = .error .noChallenge
        ∧ (webauthn_login_verify (store_pop s email).2 db cfg now jti1 jti2
            email resp).2.2 = db)
    ∧ (∀ (s : ChallengeStore) (db db' : DB) (cfg cfg' : Config)
        (now now' jti1 jti2 jti1' jti2' : Nat) (email : String)
        (resp resp' : AuthenticationResponse),
        (webauthn_login_verify
            (webauthn_login_verify s db cfg now jti1 jti2 email resp).2.1
            db' cfg' now' jti1' jti2' email resp').1 = .error .noChallenge) := by
  refine ⟨?_, ?_, ?_, ?_, ?_⟩
  · intro s k c1 c2
    simp [store_pop, store_set]
  · intro s k c
    simp [store_pop, store_set]
  · intro s k
    simp [store_pop]
  · intro s db cfg now jti1 jti2 email resp
    constructor <;> simp [webauthn_login_verify, store_pop]
  · intro s db db' cfg cfg' now now' jti1 jti2 jti1' jti2' email resp resp'
    rw [webauthn_login_verify_store]
    simp [webauthn_login_verify, store_pop]

/-- When the modelled verifier succeeds, the returned count is the
response's count, and the stored counter either strictly advanced or the
authenticator is counter-less (both counters zero). -/
theorem verify_auth_ok (resp : AuthenticationResponse) (ch : Nat)
    (o r pk : String) (stored n : Nat)
    (h : verify_authentication_response resp ch o r pk stored = .ok n) :
    n = resp.sign_count
      ∧ (stored < resp.sign_count ∨ (stored = 0 ∧ resp.sign_count = 0)) := by
  unfold verify_authentication_response at h
  split at h
  · simp at h
  split at h
  · simp at h
  split at h
  · simp at h
  split at h
  · simp at h
  split at h
  · simp at h
  rename_i hcount
  refine ⟨?_, by omega⟩
  injection h with h
  exact h.symm

/-- C4 (amended): for every passwordless authentication finish over a
counter-bearing credential (response counter or stored counter nonzero),
a validly-signed response whose counter is ≤ the stored counter is
rejected with ReplayDetected and leaves the database unchanged; and
every successful authentication updates the stored counter to the
response's new counter, which strictly advanced unless both counters are
zero — so, whatever the signature, a counter-bearing response whose
counter fails to advance never succeeds, and the persisted counter never
decreases. -/
theorem counter_monotonicity :
    (∀ (store : ChallengeStore) (db : DB) (cfg : Config) (now jti1 jti2 : Nat)
        (email : String) (resp : AuthenticationResponse) (ch : Nat)
        (user : User) (role : String) (db_cred : WebAuthnCredential),
        store email = some ch →
        lookup_user_by_email db email = some (user, role) →
        user.is_active = true →
        (resp.id == "") = false →
        db.webauthn_credentials.find? (fun c => c.credential_id == resp.id) =
          some db_cred →
        resp.challenge = ch →
        resp.origin = ORIGIN →
        resp.rp_id = RP_ID →
        resp.signed_with = db_cred.public_key →
        resp.sign_count ≤ db_cred.sign_count →
        (0 < resp.sign_count ∨ 0 < db_cred.sign_count) →
        (webauthn_login_verify store db cfg now jti1 jti2 email resp).1 =
            .error .replayDetected
          ∧ (webauthn_login_verify store db cfg now jti1 jti2 email resp).2.2 = db)
    ∧ (∀ (store store' : ChallengeStore) (db db' : DB) (cfg : Config)
        (now jti1 jti2 : Nat) (email : String) (resp : AuthenticationResponse)
        (pair : TokenPair),
        webauthn_login_verify store db cfg now jti1 jti2 email resp =
          (.ok pair, store', db') →
        ∃ db_cred,
          db.webauthn_credentials.find? (fun c => c.credential_id == resp.id) =
              some db_cred
            ∧ (db_cred.sign_count < resp.sign_count
                ∨ (db_cred.sign_count = 0 ∧ resp.sign_count = 0))
            ∧ db' =
              { db with webauthn_credentials :=
                  set_sign_count_first db.webauthn_credentials resp.id resp.sign_count }) := by
  constructor
  · intro store db cfg now jti1 jti2 email resp ch user role db_cred
      hse hl hact hid hf hc ho hr hsw hle hpos
    constructor <;>
      simp [webauthn_login_verify, store_pop, verify_authentication_response,
            hse, hl, hact, hid, hf, hc, ho, hr, hsw, hle, hpos]
  · intro store store' db db' cfg now jti1 jti2 email resp pair h
    unfold webauthn_login_verify at h
    rcases hse : store email with _ | ch <;> simp only [store_pop, hse] at h
    · simp at h
    rcases hl : lookup_user_by_email db email with _ | ⟨user, role⟩ <;>
      simp only [hl] at h
    · simp at h
    split at h
    · simp at h
    split at h
    · simp at h
    rcases hf : db.webauthn_credentials.find? (fun c => c.credential_id == resp.id)
        with _ | db_cred <;> simp only [hf] at h
    · simp at h
    rcases hv : verify_authentication_response resp ch ORIGIN RP_ID
        db_cred.public_key db_cred.sign_count with e | n <;> simp only [hv] at h
    · simp at h
    obtain ⟨hn, hadv⟩ :=
      verify_auth_ok resp ch ORIGIN RP_ID db_cred.public_key db_cred.sign_count n hv
    subst hn
    refine ⟨db_cred, hf, hadv, ?_⟩
    simp only [Prod.mk.injEq] at h
    exact h.2.2.symm

/-- Witness for C4 at `resp4` / `cred4`: stored counter 5, response
counter 5 with a valid signature is rejected with ReplayDetected and
the database is unchanged. -/
theorem counter_monotonicity_witness :
    (store4 "alice@example.com" = some 9
      ∧ lookup_user_by_email db0 "alice@example.com" = some (alice, "student")
      ∧ alice.is_active = true
      ∧ (resp4.id == "") = false
      ∧ db0.webauthn_credentials.find? (fun c => c.credential_id == resp4.id) =
          some cred4
      ∧ resp4.challenge = 9
      ∧ resp4.origin = ORIGIN
      ∧ resp4.rp_id = RP_ID
      ∧ resp4.signed_with = cred4.public_key
      ∧ resp4.sign_count ≤ cred4.sign_count
      ∧ (0 < resp4.sign_count ∨ 0 < cred4.sign_count))
    ∧ (webauthn_login_verify store4 db0 cfg0 20 1 2 "alice@example.com" resp4).1 =
        .error .replayDetected
    ∧ (webauthn_login_verify store4 db0 cfg0 20 1 2 "alice@example.com" resp4).2.2 =
        db0 :=
  ⟨⟨by decide, by decide, by decide, by decide, by decide, by decide, by decide,
    by decide, by decide, by decide, by decide⟩,
   counter_monotonicity.1 store4 db0 cfg0 20 1 2 "alice@example.com" resp4 9
     alice "student" cred4 (by decide) (by decide) (by decide) (by decide)
     (by decide) (by decide) (by decide) (by decide) (by decide) (by decide)
     (by decide)⟩

/-- Counterexample to C4 as stated: `resp0`'s counter (0) is ≤ the
stored counter of `cred0` (0) and its signature is valid, yet the finish
succeeds instead of failing with ReplayDetected (counter-less
authenticator: both counters zero). -/
theorem counter_monotonicity_counterexample :
    resp0.sign_count ≤ cred0.sign_count
    ∧ except_is_ok
        (webauthn_login_verify store0 db0 cfg0 10 1 2 "alice@example.com" resp0).1 =
      true := by
  constructor
  · decide
  · decide

/-- Witness for C6: `carol_t` (Teacher) and `carol_s` (Student) share
the identifier "x@y.com"; resolution yields the Teacher. -/
theorem by_identifier_fixed_precedence_witness :
    (get_admin_by_email db6 "x@y.com" = none
      ∧ get_teacher_by_email db6 "x@y.com" = some carol_t
      ∧ get_student_by_email db6 "x@y.com" = some carol_s)
    ∧ lookup_user_by_email db6 "x@y.com" = some (carol_t, "teacher")
    ∧ forgot_password db6 cfg0 0 6 "x@y.com" =
        .ok (jwt_encode cfg0.SECRET_KEY
          { exp := 0 + 900, sub := carol_t.id, type := "access", jti := 6,
            role := some "teacher", full_name := none }) :=
  ⟨⟨by decide, by decide, by decide⟩,
   by_identifier_fixed_precedence.2.2.2.2.2 db6 cfg0 0 6 "x@y.com" carol_t carol_s
     (by decide) (by decide) (by decide)⟩

/-- Witness for C7: the deactivated `bob` with a wrong secret gets the
invalid-credentials error, not the inactive-account error. -/
theorem login_checks_secret_before_active_witness :
    (lookup_user_by_email db0 "bob@example.com" = some (bob, "student")
      ∧ verify_password "wrong" bob.hashed_password = false
      ∧ bob.is_active = false)
    ∧ login_access_token db0 cfg0 0 1 2 "bob@example.com" "wrong" =
        .error ⟨400, "Incorrect email or password"⟩ :=
  ⟨⟨by decide, by decide, by decide⟩,
   login_checks_secret_before_active.1 db0 cfg0 0 1 2 "bob@example.com" "wrong"
     bob "student" (by decide) (by decide)⟩

end SIMS
